import Mathlib

/-!
Verification development for the `chatgpt_memory` OpenAI utility layer
(`chatgpt_memory/utils/openai_utils.py`): tokenizer selection and token
counting, the single-attempt HTTP request with error classification, the
retrying wrapper with exponential backoff, and the prompt template.

External collaborators (the HTTP transport `requests`, the JSON decoder
`json.loads`, and the tokenizer libraries `tiktoken` and `transformers`)
are modelled as explicit parameters: a transport result is either a
transport-level error or an `HTTPResponse`, and JSON decoding is a
function `String → Except String J` returning either a decoding error
message or a decoded value.
-/

namespace ChatGPTMemory

deriving instance DecidableEq for Except

/-- An HTTP response as seen by `openai_request`: `requests` exposes
`response.status_code` and `response.text`. -/
structure HTTPResponse where
  status_code : Nat
  text : String
deriving Repr, DecidableEq

/-- The errors a single attempt of `openai_request` can raise.
`OpenAIRateLimitError` and `OpenAIError` are the classified errors from
`chatgpt_memory/errors.py` (the rate-limit error subclasses `OpenAIError`);
`JSONDecodeError` models a `json.loads` failure and `TransportError`
models a `requests`-level failure (network error, timeout), neither of
which is classified by this layer. -/
inductive AttemptError where
  | OpenAIRateLimitError (message : String)
  | OpenAIError (message : String) (status_code : Nat)
  | JSONDecodeError (message : String)
  | TransportError (message : String)
deriving Repr, DecidableEq

/-- The retryable-error predicate induced by the decorator call site in
`openai_utils.py`: `errors=(OpenAIRateLimitError, OpenAIError)`. Since
`OpenAIRateLimitError` subclasses `OpenAIError`, exactly the two
classified kinds match; decode and transport failures do not. -/
def isRetryableError : AttemptError → Bool
  | .OpenAIRateLimitError _ => true
  | .OpenAIError _ _ => true
  | .JSONDecodeError _ => false
  | .TransportError _ => false

/-- One attempt of `openai_request` (`openai_utils.py`, lines 105-123),
given the transport's result for this attempt. Mirrors the source order:
the body is parsed by `json.loads` before any status check; then a
non-200 status is classified, 429 as `OpenAIRateLimitError` with the
source's message and any other non-200 as `OpenAIError` carrying the
status code; a 200 status returns the parsed body. -/
def openai_request {J : Type} (jsonLoads : String → Except String J)
    (transportResult : Except String HTTPResponse) : Except AttemptError J :=
  match transportResult with
  | .error e => .error (.TransportError e)
  | .ok response =>
    match jsonLoads response.text with
    | .error e => .error (.JSONDecodeError e)
    | .ok res =>
      if response.status_code ≠ 200 then
        if response.status_code = 429 then
          .error (.OpenAIRateLimitError
            ("API rate limit exceeded: " ++ response.text))
        else
          .error (.OpenAIError
            ("OpenAI returned an error.\nStatus code: "
              ++ toString response.status_code
              ++ "\nResponse body: " ++ response.text)
            response.status_code)
      else
        .ok res

/-- The observable result of one `send` call: how many attempts were
made, the backoff waits performed between attempts (in order), and the
final outcome. -/
structure SendResult (E A : Type) where
  calls : Nat
  waits : List Nat
  outcome : Except E A
deriving Repr, DecidableEq

/-- Modelled from the spec: the retry loop of
`retry_with_exponential_backoff` lives in
`chatgpt_memory/utils/reflection.py`, which is not under `src/`; only its
call site decorating `openai_request` is. Following the spec's state
machine: attempt `i` (0-indexed) runs; success is terminal; a failure
satisfying the retryable predicate waits `base_delay * 2 ^ i` and retries
while attempts remain, otherwise the last classified failure is the final
outcome; a non-retryable failure is terminal immediately. The first
`Nat` argument is the number of attempts remaining after the current
one, the second is the current 0-indexed attempt number. -/
def sendAux {E A : Type} (retryable : E → Bool) (base_delay : Nat)
    (attempt : Nat → Except E A) : Nat → Nat → SendResult E A
  | 0, i =>
    match attempt i with
    | .ok a => ⟨1, [], .ok a⟩
    | .error e => ⟨1, [], .error e⟩
  | fuel + 1, i =>
    match attempt i with
    | .ok a => ⟨1, [], .ok a⟩
    | .error e =>
      if retryable e then
        let rest := sendAux retryable base_delay attempt fuel (i + 1)
        ⟨rest.calls + 1, base_delay * 2 ^ i :: rest.waits, rest.outcome⟩
      else ⟨1, [], .error e⟩

/-- Modelled from the spec: a full `send` makes at most `max_attempts`
attempts (spec section 4.2), starting at attempt 0. -/
def send {E A : Type} (retryable : E → Bool) (base_delay max_attempts : Nat)
    (attempt : Nat → Except E A) : SendResult E A :=
  sendAux retryable base_delay attempt (max_attempts - 1) 0

/-- `openai_request` wrapped by the retry policy, as produced by the
decorator application in `openai_utils.py`: the retryable kinds are the
classified errors, and attempt `i` consults the transport's `i`-th
result. -/
def openai_send {J : Type} (jsonLoads : String → Except String J)
    (base_delay max_attempts : Nat)
    (transport : Nat → Except String HTTPResponse) : SendResult AttemptError J :=
  send isRetryableError base_delay max_attempts
    (fun i => openai_request jsonLoads (transport i))

/-- The `tiktoken` encoding capability: `get_encoding(name)` returns an
object with `encode(text)` producing a sequence of token ids. -/
structure TiktokenEncoding where
  encode : String → List Nat

/-- The `GPT2TokenizerFast` capability from `transformers`:
`from_pretrained(name)` returns an object with `tokenize(text)` producing
a sequence of token strings (it also exposes `encode`). -/
structure GPT2TokenizerFast where
  tokenize : String → List String
  encode : String → List Nat

/-- The tokenizer handle returned by `load_openai_tokenizer`: either a
`tiktoken` encoding or the fallback `GPT2TokenizerFast`. -/
inductive Tokenizer where
  | tiktoken (enc : TiktokenEncoding)
  | gpt2 (tok : GPT2TokenizerFast)

/-- The environment `load_openai_tokenizer` runs in: whether the optional
`tiktoken` package can be imported, and the two constructor capabilities
of the external tokenizer libraries. -/
structure TokenizerEnv where
  tiktoken_available : Bool
  get_encoding : String → TiktokenEncoding
  from_pretrained : String → GPT2TokenizerFast

/-- The error `load_openai_tokenizer` can raise: the `ImportError` built
in `openai_utils.py` when `import tiktoken` fails, carrying the source's
message tuple. -/
inductive LoadTokenizerError where
  | ImportError (messages : List String)
deriving Repr, DecidableEq

/-- The message tuple of the `ImportError` raised in
`load_openai_tokenizer` (`openai_utils.py`, lines 41-45). -/
def tiktokenImportErrorMessages : List String :=
  ["The `tiktoken` package not found.",
   "To install it use the following:",
   "`pip install tiktoken`"]

/-- `load_openai_tokenizer` (`openai_utils.py`, lines 16-55): if
`use_tiktoken` is true, import `tiktoken` and return
`tiktoken.get_encoding(tokenizer_name)`, raising `ImportError` when
the import fails; otherwise return
`GPT2TokenizerFast.from_pretrained(tokenizer_name)` without touching
`tiktoken`. -/
def load_openai_tokenizer (env : TokenizerEnv) (tokenizer_name : String)
    (use_tiktoken : Bool) : Except LoadTokenizerError Tokenizer :=
  if use_tiktoken then
    if env.tiktoken_available then
      .ok (.tiktoken (env.get_encoding tokenizer_name))
    else
      .error (.ImportError tiktokenImportErrorMessages)
  else
    .ok (.gpt2 (env.from_pretrained tokenizer_name))

/-- `count_openai_tokens` (`openai_utils.py`, lines 57-73): dispatches on
the `use_tiktoken` flag, to `len(tokenizer.encode(text))` for the fast
backend and `len(tokenizer.tokenize(text))` for the fallback backend.
`none` models the `AttributeError` of calling `tokenize` on a `tiktoken`
encoding, which has no such method. -/
def count_openai_tokens (text : String) (tokenizer : Tokenizer)
    (use_tiktoken : Bool) : Option Nat :=
  if use_tiktoken then
    match tokenizer with
    | .tiktoken t => some (t.encode text).length
    | .gpt2 t => some (t.encode text).length
  else
    match tokenizer with
    | .tiktoken _ => none
    | .gpt2 t => some (t.tokenize text).length

/-- The fixed text of the `get_prompt` f-string template before the
`history` interpolation point (`openai_utils.py`, lines 126-163). -/
def promptPreamble : String :=
  " You are an AI Assistant designed to intelligently generate content for a wide variety of tasks, with a focus on sales and marketing materials. Your main task is to provide users with high-quality content based on your extensive knowledge base and understanding of various writing styles.\n\n"
  ++ "Incorporate Context: When given context or reference material, utilize it effectively to generate content that aligns with the user's needs. Pay special attention to any context that provides examples of preferred writing style and tone. For instance, if you are asked to generate content related to VNTANA, remember that it is a 3D Infrastructure Platform designed to optimize, convert, and distribute 3D assets for use in various channels. The platform is used by brands, retailers, and technology platforms to create immersive 3D and AR experiences, streamline 3D workflows, and integrate 3D capabilities into existing infrastructure.\n\n"
  ++ "Adapt to Writing Styles: Be flexible in adopting different writing styles as desired by the user, such as emulating a specific person's style or following principles for selling and persuasion. Ensure that your generated content maintains the desired tone, format, and structure.\n\n"
  ++ "Core Message and Key Points: Keep in mind the core message and key points you need to convey in your generated content. Focus on addressing the user's main objectives and make sure the content is aligned with their goals. For example, if the user's goal is to highlight the benefits of VNTANA's platform, emphasize its ability to automatically optimize 3D models, connect all tools in a 3D workflow, and make 3D accessible to every part of a business.\n\n"
  ++ "Wide Variety of Tasks: Be prepared to assist users with various tasks, ranging from email replies to creating sales and marketing materials. Use your knowledge base to provide targeted and relevant content for each specific task.\n\n"
  ++ "Generate Content Efficiently: Produce high-quality content that is concise, informative, and impactful. Ensure that your writing is clear, well-structured, and persuasive to help users achieve their desired outcomes.\n\n"
  ++ "Remember, the overall purpose is to support users by generating content that effectively addresses their needs and objectives across a wide variety of tasks.\n\n"
  ++ "If the AI Assistant does not know the answer to a question, it truthfully says it does not know. The AI Assisaant ONLY uses information contained in the \"Relevant Information\" section and does not hallucinate.\n\n    "

/-- `get_prompt` (`openai_utils.py`, lines 126-163): the f-string
template, interpolating `history` and `message` at their places. -/
def get_prompt (message history : String) : String :=
  promptPreamble ++ history ++ "\n    Human: " ++ message ++ "\n    Assistant:"

/-- A concrete JSON-decoding collaborator for concrete evaluations: it
decodes the body "\x7b\x7d" (an empty JSON object) to itself and fails on
every other body with the message `json.loads` produces on a body that is
not valid JSON. -/
def jsonLoadsSimple : String → Except String String := fun s =>
  if s = "\x7b\x7d" then .ok s
  else .error "Expecting value: line 1 column 1 (char 0)"

theorem sendAux_ok {E A : Type} (retryable : E → Bool) (b : Nat)
    (attempt : Nat → Except E A) (fuel i : Nat) (a : A)
    (h : attempt i = .ok a) :
    sendAux retryable b attempt fuel i = ⟨1, [], .ok a⟩ := by
  cases fuel <;> simp [sendAux, h]

theorem sendAux_fatal {E A : Type} (retryable : E → Bool) (b : Nat)
    (attempt : Nat → Except E A) (fuel i : Nat) (e : E)
    (h : attempt i = .error e) (hr : retryable e = false) :
    sendAux retryable b attempt fuel i = ⟨1, [], .error e⟩ := by
  cases fuel <;> simp [sendAux, h, hr]

theorem sendAux_retry {E A : Type} (retryable : E → Bool) (b : Nat)
    (attempt : Nat → Except E A) (fuel i : Nat) (e : E)
    (h : attempt i = .error e) (hr : retryable e = true) :
    sendAux retryable b attempt (fuel + 1) i =
      ⟨(sendAux retryable b attempt fuel (i + 1)).calls + 1,
       b * 2 ^ i :: (sendAux retryable b attempt fuel (i + 1)).waits,
       (sendAux retryable b attempt fuel (i + 1)).outcome⟩ := by
  simp [sendAux, h, hr]

theorem sendAux_calls_pos {E A : Type} (retryable : E → Bool) (b : Nat)
    (attempt : Nat → Except E A) (fuel i : Nat) :
    1 ≤ (sendAux retryable b attempt fuel i).calls := by
  cases fuel with
  | zero => cases h : attempt i <;> simp [sendAux, h]
  | succ fuel =>
    cases h : attempt i with
    | ok a => simp [sendAux, h]
    | error e =>
      by_cases hr : retryable e <;> simp [sendAux, h, hr]

theorem sendAux_all_fail {E A : Type} (retryable : E → Bool) (b : Nat)
    (attempt : Nat → Except E A) (errs : Nat → E) :
    ∀ fuel i,
      (∀ j, j ≤ fuel → attempt (i + j) = .error (errs (i + j))) →
      (∀ j, j ≤ fuel → retryable (errs (i + j)) = true) →
      sendAux retryable b attempt fuel i =
        ⟨fuel + 1, (List.range fuel).map (fun j => b * 2 ^ (i + j)),
         .error (errs (i + fuel))⟩ := by
  intro fuel
  induction fuel with
  | zero =>
    intro i hfail _
    have h0 := hfail 0 (Nat.le_refl 0)
    simp only [Nat.add_zero] at h0 ⊢
    simp [sendAux, h0]
  | succ fuel ih =>
    intro i hfail hretry
    have h0 := hfail 0 (Nat.zero_le _)
    have hr0 := hretry 0 (Nat.zero_le _)
    simp only [Nat.add_zero] at h0 hr0
    rw [sendAux_retry retryable b attempt fuel i _ h0 hr0]
    rw [ih (i + 1)
      (fun j hj => by
        have h := hfail (j + 1) (by omega)
        rw [show i + (j + 1) = i + 1 + j by omega] at h
        exact h)
      (fun j hj => by
        have h := hretry (j + 1) (by omega)
        rw [show i + (j + 1) = i + 1 + j by omega] at h
        exact h)]
    have hlist : b * 2 ^ i :: (List.range fuel).map (fun j => b * 2 ^ (i + 1 + j))
        = (List.range (fuel + 1)).map (fun j => b * 2 ^ (i + j)) := by
      rw [List.range_succ_eq_map, List.map_cons, List.map_map]
      simp only [Nat.add_zero]
      congr 1
      refine List.map_congr_left fun j _ => ?_
      simp only [Function.comp]
      rw [show i + (j + 1) = i + 1 + j by omega]
    rw [show i + 1 + fuel = i + (fuel + 1) by omega]
    simp [hlist]

theorem sendAux_fail_then_ok {E A : Type} (retryable : E → Bool) (b : Nat)
    (attempt : Nat → Except E A) (errs : Nat → E) (a : A) :
    ∀ k fuel i, k ≤ fuel →
      (∀ j, j < k → attempt (i + j) = .error (errs (i + j))) →
      (∀ j, j < k → retryable (errs (i + j)) = true) →
      attempt (i + k) = .ok a →
      sendAux retryable b attempt fuel i =
        ⟨k + 1, (List.range k).map (fun j => b * 2 ^ (i + j)), .ok a⟩ := by
  intro k
  induction k with
  | zero =>
    intro fuel i _ _ _ hok
    simp only [Nat.add_zero] at hok
    simp [sendAux_ok retryable b attempt fuel i a hok]
  | succ k ih =>
    intro fuel i hk hfail hretry hok
    obtain ⟨fuel', rfl⟩ : ∃ f, fuel = f + 1 := ⟨fuel - 1, by omega⟩
    have h0 := hfail 0 (Nat.succ_pos k)
    have hr0 := hretry 0 (Nat.succ_pos k)
    simp only [Nat.add_zero] at h0 hr0
    rw [sendAux_retry retryable b attempt fuel' i _ h0 hr0]
    rw [ih fuel' (i + 1) (by omega)
      (fun j hj => by
        have h := hfail (j + 1) (by omega)
        rw [show i + (j + 1) = i + 1 + j by omega] at h
        exact h)
      (fun j hj => by
        have h := hretry (j + 1) (by omega)
        rw [show i + (j + 1) = i + 1 + j by omega] at h
        exact h)
      (by
        rw [show i + 1 + k = i + (k + 1) by omega]
        exact hok)]
    have hlist : b * 2 ^ i :: (List.range k).map (fun j => b * 2 ^ (i + 1 + j))
        = (List.range (k + 1)).map (fun j => b * 2 ^ (i + j)) := by
      rw [List.range_succ_eq_map, List.map_cons, List.map_map]
      simp only [Nat.add_zero]
      congr 1
      refine List.map_congr_left fun j _ => ?_
      simp only [Function.comp]
      rw [show i + (j + 1) = i + 1 + j by omega]
    simp [hlist]

/-- C1 counterexample: a response with status 429 whose body is not
valid JSON fails with the unclassified `JSONDecodeError`, not with the
`OpenAIRateLimitError` the claim demands for every non-200 response. -/
theorem c1_counterexample :
    openai_request jsonLoadsSimple (.ok ⟨429, "not json"⟩) =
      .error (.JSONDecodeError "Expecting value: line 1 column 1 (char 0)") ∧
    ¬ ∃ m, openai_request jsonLoadsSimple (.ok ⟨429, "not json"⟩) =
      .error (.OpenAIRateLimitError m) := by
  refine ⟨by decide, ?_⟩
  rintro ⟨m, hm⟩
  rw [(by decide : openai_request jsonLoadsSimple (.ok ⟨429, "not json"⟩) =
      .error (.JSONDecodeError "Expecting value: line 1 column 1 (char 0)"))] at hm
  simp at hm

/-- C1 (amended): for every response with a non-200 HTTP status whose
body parses as JSON, a single attempt of `openai_request` fails with a
classified error: status 429 yields `OpenAIRateLimitError` whose message
contains the response text, and any other non-200 status yields
`OpenAIError` carrying that status code and the response text. -/
theorem non200_classified {J : Type} (jsonLoads : String → Except String J)
    (r : HTTPResponse) (res : J) (hparse : jsonLoads r.text = .ok res)
    (hne : r.status_code ≠ 200) :
    (r.status_code = 429 →
      openai_request jsonLoads (.ok r) =
        .error (.OpenAIRateLimitError ("API rate limit exceeded: " ++ r.text))) ∧
    (r.status_code ≠ 429 →
      openai_request jsonLoads (.ok r) =
        .error (.OpenAIError
          ("OpenAI returned an error.\nStatus code: " ++ toString r.status_code
            ++ "\nResponse body: " ++ r.text) r.status_code)) := by
  constructor <;> intro h429 <;> simp [openai_request, hparse, hne, h429]

theorem non200_classified_witness :
    openai_request jsonLoadsSimple (.ok ⟨429, "\x7b\x7d"⟩) =
      .error (.OpenAIRateLimitError "API rate limit exceeded: \x7b\x7d") ∧
    openai_request jsonLoadsSimple (.ok ⟨500, "\x7b\x7d"⟩) =
      .error (.OpenAIError
        "OpenAI returned an error.\nStatus code: 500\nResponse body: \x7b\x7d" 500) := by
  constructor
  · exact ((non200_classified jsonLoadsSimple ⟨429, "\x7b\x7d"⟩ "\x7b\x7d"
      (by decide) (by decide)).1 rfl).trans (by decide)
  · exact ((non200_classified jsonLoadsSimple ⟨500, "\x7b\x7d"⟩ "\x7b\x7d"
      (by decide) (by decide)).2 (by decide)).trans (by decide)

/-- C6: `openai_request` parses the response body as JSON before any
status classification: whenever the body fails to decode, the attempt
fails with the unclassified, non-retryable `JSONDecodeError`, whatever
the HTTP status code (429 and other non-200 codes included). -/
theorem json_parsed_before_classification {J : Type}
    (jsonLoads : String → Except String J) (r : HTTPResponse) (msg : String)
    (hparse : jsonLoads r.text = .error msg) :
    openai_request jsonLoads (.ok r) = .error (.JSONDecodeError msg) ∧
    isRetryableError (.JSONDecodeError msg) = false := by
  exact ⟨by simp [openai_request, hparse], rfl⟩

theorem json_parsed_before_classification_witness :
    openai_request jsonLoadsSimple (.ok ⟨429, "oops"⟩) =
      .error (.JSONDecodeError "Expecting value: line 1 column 1 (char 0)") ∧
    isRetryableError
      (.JSONDecodeError "Expecting value: line 1 column 1 (char 0)") = false :=
  json_parsed_before_classification jsonLoadsSimple ⟨429, "oops"⟩ _ (by decide)

/-- C5: when the transport answers the first attempt with a 200 response
whose body decodes, `send` succeeds on the first attempt: exactly one
call, zero backoff waits, and the parsed body as the outcome. -/
theorem success_on_200 {J : Type} (jsonLoads : String → Except String J)
    (b m : Nat) (transport : Nat → Except String HTTPResponse)
    (r : HTTPResponse) (res : J)
    (h0 : transport 0 = .ok r) (h200 : r.status_code = 200)
    (hparse : jsonLoads r.text = .ok res) :
    openai_send jsonLoads b m transport = ⟨1, [], .ok res⟩ := by
  unfold openai_send send
  apply sendAux_ok
  simp [openai_request, h0, hparse, h200]

theorem success_on_200_witness :
    openai_send jsonLoadsSimple 1 6 (fun _ => .ok ⟨200, "\x7b\x7d"⟩) =
      ⟨1, [], .ok "\x7b\x7d"⟩ :=
  success_on_200 jsonLoadsSimple 1 6 (fun _ => .ok ⟨200, "\x7b\x7d"⟩)
    ⟨200, "\x7b\x7d"⟩ "\x7b\x7d" rfl rfl (by decide)

/-- C2: the retry policy wrapping `openai_request` retries exactly the
classified kinds: the retryable predicate holds precisely of
`OpenAIRateLimitError` and `OpenAIError`; when attempt 0 fails with a
classified error and attempts remain a second call is made, and when it
fails with any other kind the failure propagates unchanged after exactly
one call, with no wait and no retry. -/
theorem retry_policy_exactly_classified {J : Type} (b m : Nat)
    (attempt : Nat → Except AttemptError J) (e : AttemptError)
    (hm : 2 ≤ m) (h0 : attempt 0 = .error e) :
    (isRetryableError e = true ↔
      (∃ msg, e = .OpenAIRateLimitError msg) ∨
      (∃ msg c, e = .OpenAIError msg c)) ∧
    (isRetryableError e = true →
      2 ≤ (send isRetryableError b m attempt).calls) ∧
    (isRetryableError e = false →
      send isRetryableError b m attempt = ⟨1, [], .error e⟩) := by
  refine ⟨?_, ?_, ?_⟩
  · cases e <;> simp [isRetryableError]
  · intro hr
    obtain ⟨k, hk⟩ : ∃ k, m - 1 = k + 1 := ⟨m - 2, by omega⟩
    unfold send
    rw [hk, sendAux_retry isRetryableError b attempt k 0 e h0 hr]
    have hpos := sendAux_calls_pos isRetryableError b attempt k 1
    show 2 ≤ (sendAux isRetryableError b attempt k 1).calls + 1
    omega
  · intro hr
    exact sendAux_fatal isRetryableError b attempt (m - 1) 0 e h0 hr

theorem retry_policy_exactly_classified_witness :
    send isRetryableError 1 2
      (fun _ => (.error (.TransportError "connection reset") : Except AttemptError String)) =
      ⟨1, [], .error (.TransportError "connection reset")⟩ :=
  (retry_policy_exactly_classified 1 2
    (fun _ => (.error (.TransportError "connection reset") : Except AttemptError String))
    (.TransportError "connection reset") (by omega) rfl).2.2 rfl

/-- C3: when every attempt up to `max_attempts` fails with a classified
(retryable) error, `send` makes exactly `max_attempts` calls and its
final outcome is the last attempt's classified failure, unchanged. -/
theorem exhaustion_returns_last_failure {J : Type} (b m : Nat)
    (attempt : Nat → Except AttemptError J) (errs : Nat → AttemptError)
    (hm : 1 ≤ m)
    (hfail : ∀ i, i < m → attempt i = .error (errs i))
    (hretry : ∀ i, i < m → isRetryableError (errs i) = true) :
    (send isRetryableError b m attempt).calls = m ∧
    (send isRetryableError b m attempt).outcome = .error (errs (m - 1)) := by
  unfold send
  rw [sendAux_all_fail isRetryableError b attempt errs (m - 1) 0
    (fun j hj => by simpa using hfail j (by omega))
    (fun j hj => by simpa using hretry j (by omega))]
  constructor
  · simp only []
    omega
  · simp

theorem exhaustion_returns_last_failure_witness :
    (openai_send jsonLoadsSimple 1 3 (fun _ => .ok ⟨429, "\x7b\x7d"⟩)).calls = 3 ∧
    (openai_send jsonLoadsSimple 1 3 (fun _ => .ok ⟨429, "\x7b\x7d"⟩)).outcome =
      .error (.OpenAIRateLimitError "API rate limit exceeded: \x7b\x7d") := by
  have h := exhaustion_returns_last_failure (J := String) 1 3
    (fun _ => openai_request jsonLoadsSimple (.ok ⟨429, "\x7b\x7d"⟩))
    (fun _ => .OpenAIRateLimitError ("API rate limit exceeded: " ++ "\x7b\x7d"))
    (by omega)
    (fun _ _ => (by decide : openai_request jsonLoadsSimple (.ok ⟨429, "\x7b\x7d"⟩) =
      .error (.OpenAIRateLimitError ("API rate limit exceeded: " ++ "\x7b\x7d"))))
    (fun _ _ => rfl)
  exact ⟨h.1, h.2.trans (by decide)⟩

/-- C4: the backoff schedule — when attempts 0 through k-1 fail with
classified errors and attempt k succeeds (k < max_attempts), `send`
makes k+1 calls, performs exactly the waits base_delay * 2 ^ i for
i = 0 .. k-1 in order, so each successive wait is twice the previous
one, and succeeds. -/
theorem backoff_schedule {J : Type} (b m k : Nat)
    (attempt : Nat → Except AttemptError J) (errs : Nat → AttemptError) (a : J)
    (hk : k < m)
    (hfail : ∀ i, i < k → attempt i = .error (errs i))
    (hretry : ∀ i, i < k → isRetryableError (errs i) = true)
    (hok : attempt k = .ok a) :
    send isRetryableError b m attempt =
      ⟨k + 1, (List.range k).map (fun i => b * 2 ^ i), .ok a⟩ ∧
    (∀ i w w', (send isRetryableError b m attempt).waits[i]? = some w →
      (send isRetryableError b m attempt).waits[i + 1]? = some w' →
      w' = 2 * w) := by
  have hsend : send isRetryableError b m attempt =
      ⟨k + 1, (List.range k).map (fun i => b * 2 ^ i), .ok a⟩ := by
    unfold send
    have h := sendAux_fail_then_ok isRetryableError b attempt errs a k (m - 1) 0
      (by omega)
      (fun j hj => by simpa using hfail j hj)
      (fun j hj => by simpa using hretry j hj)
      (by simpa using hok)
    simpa using h
  refine ⟨hsend, ?_⟩
  intro i w w' h1 h2
  rw [hsend] at h1 h2
  dsimp only at h1 h2
  have hik1 : i + 1 < k := by
    by_contra hc
    have hlen : ((List.range k).map (fun i => b * 2 ^ i)).length ≤ i + 1 := by
      simp
      omega
    rw [List.getElem?_eq_none hlen] at h2
    cases h2
  have hik : i < k := by omega
  rw [List.getElem?_map, List.getElem?_range hik, Option.map_some'] at h1
  rw [List.getElem?_map, List.getElem?_range hik1, Option.map_some'] at h2
  obtain rfl : b * 2 ^ i = w := Option.some.inj h1
  obtain rfl : b * 2 ^ (i + 1) = w' := Option.some.inj h2
  rw [pow_succ]
  ring

theorem backoff_schedule_witness :
    openai_send jsonLoadsSimple 1 3
      (fun i => .ok ⟨if i < 2 then 429 else 200, "\x7b\x7d"⟩) =
      ⟨3, [1, 2], .ok "\x7b\x7d"⟩ := by
  have h := (backoff_schedule (J := String) 1 3 2
    (fun i => openai_request jsonLoadsSimple
      (.ok ⟨if i < 2 then 429 else 200, "\x7b\x7d"⟩))
    (fun _ => .OpenAIRateLimitError ("API rate limit exceeded: " ++ "\x7b\x7d"))
    "\x7b\x7d" (by omega)
    (fun i hi => by interval_cases i <;> decide)
    (fun _ _ => rfl)
    (by decide)).1
  exact h.trans (by decide)

/-- C7: requesting the tiktoken backend while the `tiktoken` package
cannot be imported makes `load_openai_tokenizer` fail with the
`ImportError` whose messages name the missing optional package. The
function takes no transport capability, so no network call can occur,
and it is not wrapped by the retry decorator, so the failure is not
retried. -/
theorem tiktoken_missing_dependency (env : TokenizerEnv) (name : String)
    (h : env.tiktoken_available = false) :
    load_openai_tokenizer env name true =
      .error (.ImportError tiktokenImportErrorMessages) ∧
    ∃ msg ∈ tiktokenImportErrorMessages, "tiktoken".data <:+: msg.data := by
  refine ⟨by simp [load_openai_tokenizer, h], ?_⟩
  refine ⟨"The `tiktoken` package not found.", by decide, by decide⟩

theorem tiktoken_missing_dependency_witness :
    load_openai_tokenizer
      ⟨false, fun _ => ⟨fun _ => []⟩, fun _ => ⟨fun _ => [], fun _ => []⟩⟩
      "cl100k_base" true = .error (.ImportError tiktokenImportErrorMessages) :=
  (tiktoken_missing_dependency
    ⟨false, fun _ => ⟨fun _ => []⟩, fun _ => ⟨fun _ => [], fun _ => []⟩⟩
    "cl100k_base" rfl).1

/-- C8: `count_openai_tokens` dispatches to the length of `encode(text)`
for the fast backend and to the length of `tokenize(text)` for the
fallback backend; whenever the backend maps the empty string to the
empty sequence (as both real tokenizers do), the count of "" is 0; being
a pure function, the count is deterministic for identical input and
handle. -/
theorem count_tokens_dispatch (enc : TiktokenEncoding)
    (tok : GPT2TokenizerFast) (text : String) :
    count_openai_tokens text (.tiktoken enc) true =
      some (enc.encode text).length ∧
    count_openai_tokens text (.gpt2 tok) false =
      some (tok.tokenize text).length ∧
    (enc.encode "" = [] →
      count_openai_tokens "" (.tiktoken enc) true = some 0) ∧
    (tok.tokenize "" = [] →
      count_openai_tokens "" (.gpt2 tok) false = some 0) := by
  refine ⟨rfl, rfl, fun h => ?_, fun h => ?_⟩
  · simp [count_openai_tokens, h]
  · simp [count_openai_tokens, h]

theorem count_tokens_dispatch_witness :
    count_openai_tokens "" (.tiktoken ⟨fun _ => []⟩) true = some 0 ∧
    count_openai_tokens "" (.gpt2 ⟨fun _ => [], fun _ => []⟩) false = some 0 :=
  ⟨(count_tokens_dispatch ⟨fun _ => []⟩ ⟨fun _ => [], fun _ => []⟩ "").2.2.1 rfl,
   (count_tokens_dispatch ⟨fun _ => []⟩ ⟨fun _ => [], fun _ => []⟩ "").2.2.2 rfl⟩

/-- C9: with `use_tiktoken` false, `load_openai_tokenizer` returns the
fallback backend built by `GPT2TokenizerFast.from_pretrained` on the
given name, and the result is identical in any two environments sharing
`from_pretrained` — in particular it does not depend on whether the
`tiktoken` package is importable. -/
theorem fallback_independent_of_tiktoken (env env' : TokenizerEnv)
    (name : String) (h : env.from_pretrained = env'.from_pretrained) :
    load_openai_tokenizer env name false =
      .ok (.gpt2 (env.from_pretrained name)) ∧
    load_openai_tokenizer env name false =
      load_openai_tokenizer env' name false := by
  refine ⟨rfl, ?_⟩
  simp [load_openai_tokenizer, h]

theorem fallback_independent_of_tiktoken_witness :
    load_openai_tokenizer
      ⟨false, fun _ => ⟨fun _ => []⟩, fun _ => ⟨fun _ => [], fun _ => []⟩⟩
      "gpt2" false =
    load_openai_tokenizer
      ⟨true, fun _ => ⟨fun _ => [0]⟩, fun _ => ⟨fun _ => [], fun _ => []⟩⟩
      "gpt2" false :=
  (fallback_independent_of_tiktoken
    ⟨false, fun _ => ⟨fun _ => []⟩, fun _ => ⟨fun _ => [], fun _ => []⟩⟩
    ⟨true, fun _ => ⟨fun _ => [0]⟩, fun _ => ⟨fun _ => [], fun _ => []⟩⟩
    "gpt2" rfl).2

/-- C10: the prompt produced by `get_prompt` contains the history text
verbatim, followed later by the line "Human: " concatenated with the
message verbatim, and ends with the suffix "Assistant:"; `get_prompt`
is a pure function of (message, history), hence deterministic. -/
theorem get_prompt_structure (message history : String) :
    (∃ before, get_prompt message history =
      before ++ history ++ "\n    Human: " ++ message ++ "\n    Assistant:") ∧
    "Assistant:".data <:+ (get_prompt message history).data := by
  refine ⟨⟨promptPreamble, rfl⟩, ?_⟩
  show "Assistant:".data <:+
    (promptPreamble ++ history ++ "\n    Human: " ++ message
      ++ "\n    Assistant:").data
  simp only [String.data_append]
  have h1 : "Assistant:".data <:+ ("\n    Assistant:").data := by decide
  exact h1.trans (List.suffix_append _ _)

end ChatGPTMemory
